import Mathlib

set_option maxRecDepth 4000

/-! Shallow embedding of the message-bus daemon excerpt: the error-object
module of src/dbus/dbus-errors.c and the entry-point argument handling,
descriptor resolution and address publication of src/bus/main.c. NULL
pointers are modelled as `none`, and a `_dbus_assert` whose condition fails
is modelled as an explicit `assertionFailure` outcome. -/

deriving instance DecidableEq for Except

/-- Outcome of a call that executes `_dbus_assert` statements: either the
resulting value, or an assertion failure (which aborts the process). -/
inductive DResult (α : Type) where
  | ok (val : α)
  | assertionFailure
  deriving Repr, DecidableEq

/-- Lean image of `DBusRealError` (dbus-errors.c:52): the error-name and
message pointers, with NULL modelled as `none`, plus the `const_message`
ownership bit. The placeholder padding fields carry no behaviour and are
omitted. -/
structure DBusError where
  name : Option String
  message : Option String
  const_message : Bool
  deriving Repr, DecidableEq

/-- Modelled from the spec: `DBUS_ERROR_FAILED` is defined in dbus-errors.h,
which is not among the supplied sources; the spec's fallback table keys this
entry as "failed". Only its identity as a distinct name string matters. -/
def DBUS_ERROR_FAILED : String := "failed"

/-- Modelled from the spec: name constant from the missing dbus-errors.h,
keyed "no-memory" in the spec's fallback table. -/
def DBUS_ERROR_NO_MEMORY : String := "no-memory"

/-- Modelled from the spec: name constant from the missing dbus-errors.h,
keyed "io-error" in the spec's fallback table. -/
def DBUS_ERROR_IO_ERROR : String := "io-error"

/-- Modelled from the spec: name constant from the missing dbus-errors.h,
keyed "bad-address" in the spec's fallback table. -/
def DBUS_ERROR_BAD_ADDRESS : String := "bad-address"

/-- Modelled from the spec: name constant from the missing dbus-errors.h,
keyed "not-supported" in the spec's fallback table. -/
def DBUS_ERROR_NOT_SUPPORTED : String := "not-supported"

/-- Modelled from the spec: name constant from the missing dbus-errors.h,
keyed "limits-exceeded" in the spec's fallback table. -/
def DBUS_ERROR_LIMITS_EXCEEDED : String := "limits-exceeded"

/-- Modelled from the spec: name constant from the missing dbus-errors.h,
keyed "access-denied" in the spec's fallback table. -/
def DBUS_ERROR_ACCESS_DENIED : String := "access-denied"

/-- Modelled from the spec: name constant from the missing dbus-errors.h,
keyed "auth-failed" in the spec's fallback table. -/
def DBUS_ERROR_AUTH_FAILED : String := "auth-failed"

/-- Modelled from the spec: name constant from the missing dbus-errors.h,
keyed "no-server" in the spec's fallback table. -/
def DBUS_ERROR_NO_SERVER : String := "no-server"

/-- Modelled from the spec: name constant from the missing dbus-errors.h,
keyed "timeout" in the spec's fallback table. -/
def DBUS_ERROR_TIMEOUT : String := "timeout"

/-- Modelled from the spec: name constant from the missing dbus-errors.h,
keyed "no-network" in the spec's fallback table. -/
def DBUS_ERROR_NO_NETWORK : String := "no-network"

/-- Modelled from the spec: name constant from the missing dbus-errors.h,
keyed "address-in-use" in the spec's fallback table. -/
def DBUS_ERROR_ADDRESS_IN_USE : String := "address-in-use"

/-- Modelled from the spec: name constant from the missing dbus-errors.h,
keyed "disconnected" in the spec's fallback table. -/
def DBUS_ERROR_DISCONNECTED : String := "disconnected"

/-- Modelled from the spec: name constant from the missing dbus-errors.h,
keyed "invalid-args" in the spec's fallback table. -/
def DBUS_ERROR_INVALID_ARGS : String := "invalid-args"

/-- Modelled from the spec: name constant from the missing dbus-errors.h,
keyed "no-reply" in the spec's fallback table. -/
def DBUS_ERROR_NO_REPLY : String := "no-reply"

/-- Modelled from the spec: name constant from the missing dbus-errors.h,
keyed "file-not-found" in the spec's fallback table. -/
def DBUS_ERROR_FILE_NOT_FOUND : String := "file-not-found"

/-- Translation of `message_from_error` (dbus-errors.c:76): the `strcmp`
chain mapping an error name to a longer fallback message, returning the
name itself when it is unknown. -/
def message_from_error (error : String) : String :=
  if error = DBUS_ERROR_FAILED then "Unknown error"
  else if error = DBUS_ERROR_NO_MEMORY then "Not enough memory available"
  else if error = DBUS_ERROR_IO_ERROR then "Error reading or writing data"
  else if error = DBUS_ERROR_BAD_ADDRESS then "Could not parse address"
  else if error = DBUS_ERROR_NOT_SUPPORTED then "Feature not supported"
  else if error = DBUS_ERROR_LIMITS_EXCEEDED then "Resource limits exceeded"
  else if error = DBUS_ERROR_ACCESS_DENIED then "Permission denied"
  else if error = DBUS_ERROR_AUTH_FAILED then "Could not authenticate to server"
  else if error = DBUS_ERROR_NO_SERVER then "No server available at address"
  else if error = DBUS_ERROR_TIMEOUT then "Connection timed out"
  else if error = DBUS_ERROR_NO_NETWORK then "Network unavailable"
  else if error = DBUS_ERROR_ADDRESS_IN_USE then "Address already in use"
  else if error = DBUS_ERROR_DISCONNECTED then "Disconnected."
  else if error = DBUS_ERROR_INVALID_ARGS then "Invalid argumemts."
  else if error = DBUS_ERROR_NO_REPLY then "Did not get a reply message."
  else if error = DBUS_ERROR_FILE_NOT_FOUND then "File doesn't exist."
  else error

/-- The table of `message_from_error` as name/text pairs, in source order,
for stating properties about every tabulated name at once. -/
def fallbackTable : List (String × String) :=
  [(DBUS_ERROR_FAILED, "Unknown error"),
   (DBUS_ERROR_NO_MEMORY, "Not enough memory available"),
   (DBUS_ERROR_IO_ERROR, "Error reading or writing data"),
   (DBUS_ERROR_BAD_ADDRESS, "Could not parse address"),
   (DBUS_ERROR_NOT_SUPPORTED, "Feature not supported"),
   (DBUS_ERROR_LIMITS_EXCEEDED, "Resource limits exceeded"),
   (DBUS_ERROR_ACCESS_DENIED, "Permission denied"),
   (DBUS_ERROR_AUTH_FAILED, "Could not authenticate to server"),
   (DBUS_ERROR_NO_SERVER, "No server available at address"),
   (DBUS_ERROR_TIMEOUT, "Connection timed out"),
   (DBUS_ERROR_NO_NETWORK, "Network unavailable"),
   (DBUS_ERROR_ADDRESS_IN_USE, "Address already in use"),
   (DBUS_ERROR_DISCONNECTED, "Disconnected."),
   (DBUS_ERROR_INVALID_ARGS, "Invalid argumemts."),
   (DBUS_ERROR_NO_REPLY, "Did not get a reply message."),
   (DBUS_ERROR_FILE_NOT_FOUND, "File doesn't exist.")]

/-- Translation of `dbus_error_init` (dbus-errors.c:122): overwrite the
object with NULL name, NULL message and `const_message = TRUE`. The
non-NULL pointer and layout assertions concern the caller's pointer, which
a Lean value satisfies by construction. -/
def dbus_error_init (_error : DBusError) : DBusError :=
  { name := none, message := none, const_message := true }

/-- The freshly initialized empty error object. -/
def dbus_error_empty : DBusError :=
  { name := none, message := none, const_message := true }

/-- Translation of `dbus_error_free` (dbus-errors.c:145): release the
message buffer when it is heap-owned (a pure no-op on the value), then
reinitialize as `dbus_error_init` does. -/
def dbus_error_free (error : DBusError) : DBusError :=
  dbus_error_init error

/-- The shared NULL-message substitution of `dbus_set_error_const` and
`dbus_set_error`: an absent message or format is replaced by
`message_from_error name`. -/
def resolved_message (name : String) (message : Option String) : String :=
  match message with
  | none => message_from_error name
  | some m => m

/-- Translation of `dbus_set_error_const` (dbus-errors.c:167): do nothing
on a NULL error pointer; assert the object is not already set and the name
is non-NULL; substitute a NULL message from the table; store name and
message by reference with `const_message = TRUE`. -/
def dbus_set_error_const (error : Option DBusError) (name : Option String)
    (message : Option String) : DResult (Option DBusError) :=
  match error with
  | none => .ok none
  | some e =>
    if e.name.isSome then .assertionFailure
    else if e.message.isSome then .assertionFailure
    else
      match name with
      | none => .assertionFailure
      | some n =>
        .ok (some { name := some n, message := some (resolved_message n message),
                    const_message := true })

/-- Translation of `dbus_error_is_set` (dbus-errors.c:251): assert the
pointer is non-NULL and that name and message are both present or both
absent, then report whether the name is present. -/
def dbus_error_is_set (error : Option DBusError) : DResult Bool :=
  match error with
  | none => .assertionFailure
  | some e =>
    if (e.name.isSome && e.message.isSome) || (e.name.isNone && e.message.isNone) then
      .ok e.name.isSome
    else .assertionFailure

/-- Translation of `dbus_error_has_name` (dbus-errors.c:226): assert both
pointers are non-NULL and the both-or-neither invariant, then compare the
stored name byte-for-byte with the query. -/
def dbus_error_has_name (error : Option DBusError) (name : Option String) : DResult Bool :=
  match error, name with
  | none, _ => .assertionFailure
  | some _, none => .assertionFailure
  | some e, some n =>
    if (e.name.isSome && e.message.isSome) || (e.name.isNone && e.message.isNone) then
      match e.name with
      | some stored => .ok (stored == n)
      | none => .ok false
    else .assertionFailure

/-- Translation of `dbus_move_error` (dbus-errors.c:202): first
`_dbus_assert (!dbus_error_is_set (dest))` — evaluating `dbus_error_is_set`
on `dest` even when `dest` is NULL — then either transfer the whole value
into `dest` and reinitialize `src`, or, with a NULL `dest`, free `src`.
Returns the final (src, dest) pair. -/
def dbus_move_error (src : DBusError) (dest : Option DBusError) :
    DResult (DBusError × Option DBusError) :=
  match dbus_error_is_set dest with
  | .assertionFailure => .assertionFailure
  | .ok isSet =>
    if isSet then .assertionFailure
    else
      match dest with
      | some _ => .ok (dbus_error_init src, some src)
      | none => .ok (dbus_error_free src, none)

/-- Translation of `dbus_set_error` (dbus-errors.c:276): do nothing on a
NULL error pointer; assert the object is empty and the name non-NULL;
substitute a NULL format from the table; then measure, heap-allocate and
fill the message. Heap allocation is abstracted by the oracle `allocOk`,
and rendering the format string with its variadic arguments by the
function `rendered`. On allocation failure, fall back to
`dbus_set_error_const` with `DBUS_ERROR_NO_MEMORY` and a NULL message. -/
def dbus_set_error (error : Option DBusError) (name : Option String)
    (format : Option String) (rendered : String → String) (allocOk : Bool) :
    DResult (Option DBusError) :=
  match error with
  | none => .ok none
  | some e =>
    if e.name.isSome then .assertionFailure
    else if e.message.isSome then .assertionFailure
    else
      match name with
      | none => .assertionFailure
      | some n =>
        let fmt := resolved_message n format
        if allocOk then
          .ok (some { name := some n, message := some (rendered fmt),
                      const_message := false })
        else
          dbus_set_error_const (some e) (some DBUS_ERROR_NO_MEMORY) none

/-- The spec's error-object invariant as a boolean predicate: name and
message are both present or both absent. -/
def errInv (e : DBusError) : Bool :=
  (e.name.isSome && e.message.isSome) || (e.name.isNone && e.message.isNone)

/-- Modelled from the spec: `DBUS_SYSTEM_CONFIG_FILE` is a build-time
constant supplied outside the given sources — a fixed, nonempty built-in
system configuration path. -/
def DBUS_SYSTEM_CONFIG_FILE : String := "/system-config-path"

/-- Modelled from the spec: `DBUS_SESSION_CONFIG_FILE` is a build-time
constant supplied outside the given sources — a fixed, nonempty built-in
session configuration path. -/
def DBUS_SESSION_CONFIG_FILE : String := "/session-config-path"

/-- Modelled from the spec: `_DBUS_INT_MAX` comes from dbus-internals.h,
which is not among the supplied sources — the platform's maximum signed
integer, taken as the usual 32-bit bound. -/
def _DBUS_INT_MAX : Int := 2147483647

/-- The mutable locals of `main`'s argument loop (main.c:93): the
`config_file` and `addr_fd` growable strings, the `print_address` flag and
the remembered previous token. -/
structure ParseState where
  config_file : String
  addr_fd : String
  print_address : Bool
  prev_arg : Option String
  deriving Repr, DecidableEq

/-- The ways `main` terminates before reaching bus construction, each
carrying the data its diagnostic prints. All cases call `exit (1)` except
the version banner, which exits 0. -/
inductive ExitReason where
  | usage
  | versionBanner
  | duplicateConfig (flag current : String)
  | duplicateAddr (flag current : String)
  | noConfigFile
  | invalidDescriptor (text : String)
  deriving Repr, DecidableEq

/-- The `strstr (arg, p) == arg` test of the argument loop: whether `p` is
a prefix of `arg`, computed on the character lists. -/
def str_has_prefix (p arg : String) : Bool :=
  p.toList.isPrefixOf arg.toList

/-- The pointer step past a matched `--flag=` text: drop the first `n`
characters of `arg` (in the source, `strchr (arg, c)` plus an increment). -/
def str_drop (arg : String) (n : Nat) : String :=
  String.mk (arg.toList.drop n)

/-- The process exit status each early-exit path passes to `exit`. -/
def exitStatus : ExitReason → Nat
  | .versionBanner => 0
  | _ => 1

/-- One iteration of `main`'s argument loop (main.c:111) without the final
`prev_arg = arg` update: the `strcmp`/`strstr` chain over the current
token, in source order. `strstr (arg, p) == arg` is the prefix test, and
`strchr (arg, c); ++file` drops the flag text up to and including `=`. -/
def mainStepCore (s : ParseState) (arg : String) : Except ExitReason ParseState :=
  if arg = "--help" ∨ arg = "-h" ∨ arg = "-?" then .error .usage
  else if arg = "--version" then .error .versionBanner
  else if arg = "--system" then
    if 0 < s.config_file.length then .error (.duplicateConfig "system" s.config_file)
    else .ok { s with config_file := s.config_file ++ DBUS_SYSTEM_CONFIG_FILE }
  else if arg = "--session" then
    if 0 < s.config_file.length then .error (.duplicateConfig "session" s.config_file)
    else .ok { s with config_file := s.config_file ++ DBUS_SESSION_CONFIG_FILE }
  else if str_has_prefix "--config-file=" arg then
    if 0 < s.config_file.length then .error (.duplicateConfig "config-file" s.config_file)
    else .ok { s with config_file := s.config_file ++ str_drop arg "--config-file=".length }
  else if s.prev_arg = some "--config-file" then
    if 0 < s.config_file.length then .error (.duplicateConfig "config-file" s.config_file)
    else .ok { s with config_file := s.config_file ++ arg }
  else if arg = "--config-file" then .ok s
  else if str_has_prefix "--print-address=" arg then
    if 0 < s.addr_fd.length then .error (.duplicateAddr "print-address" s.addr_fd)
    else .ok { s with addr_fd := s.addr_fd ++ str_drop arg "--print-address=".length,
                      print_address := true }
  else if s.prev_arg = some "--print-address" then
    if 0 < s.addr_fd.length then .error (.duplicateAddr "print-address" s.addr_fd)
    else .ok { s with addr_fd := s.addr_fd ++ arg, print_address := true }
  else if arg = "--print-address" then .ok { s with print_address := true }
  else .error .usage

/-- One full iteration of `main`'s argument loop: the token dispatch
followed by `prev_arg = arg` (main.c:186). -/
def mainStep (s : ParseState) (arg : String) : Except ExitReason ParseState :=
  (mainStepCore s arg).map fun t => { t with prev_arg := some arg }

/-- `main`'s whole argument loop over `argv[1..]`, starting from empty
strings, `print_address = FALSE` and no previous token. -/
def parseArgs (args : List String) : Except ExitReason ParseState :=
  args.foldlM mainStep { config_file := "", addr_fd := "", print_address := false,
                         prev_arg := none }

/-- Modelled from the spec: `_dbus_string_parse_int` belongs to the
external growable text-buffer utility (dbus-string.c, not among the
supplied sources). Per the spec it parses an integer from the start of the
text: an optional sign followed by decimal digits, returning the value and
the offset one past the last digit consumed, and failing when no digits
are consumed. -/
def _dbus_string_parse_int (s : String) : Option (Int × Nat) :=
  let cs := s.toList
  let signLen : Nat :=
    match cs with
    | c :: _ => if c = '-' ∨ c = '+' then 1 else 0
    | [] => 0
  let neg : Bool :=
    match cs with
    | c :: _ => c == '-'
    | [] => false
  let digits := (cs.drop signLen).takeWhile (fun c => c.isDigit)
  if digits.isEmpty then none
  else
    let mag : Nat := digits.foldl (fun acc c => acc * 10 + (c.toNat - 48)) 0
    some (if neg then -(mag : Int) else (mag : Int), signLen + digits.length)

/-- The post-loop validation of `main` (main.c:191): reject a missing
configuration file, then resolve the publication descriptor —
`print_addr_fd` is -1 when publication was not requested, defaults to 1
(stdout), and an explicit non-empty descriptor text must parse entirely as
an integer in [0, `_DBUS_INT_MAX`]. Returns the configuration path and the
resolved descriptor. -/
def resolveAfterParse (s : ParseState) : Except ExitReason (String × Int) :=
  if s.config_file.length = 0 then .error .noConfigFile
  else if s.print_address then
    if 0 < s.addr_fd.length then
      match _dbus_string_parse_int s.addr_fd with
      | none => .error (.invalidDescriptor s.addr_fd)
      | some (val, stop) =>
        if stop ≠ s.addr_fd.length ∨ val < 0 ∨ _DBUS_INT_MAX < val then
          .error (.invalidDescriptor s.addr_fd)
        else .ok (s.config_file, val)
    else .ok (s.config_file, 1)
  else .ok (s.config_file, -1)

/-- Observable outcome of the address-publication block (main.c:234): the
payload handed to `_dbus_write`, the target descriptor, the exit code when
the write came up short, and whether `_dbus_close` was invoked. -/
structure PublishResult where
  payload : String
  fd : Int
  exitCode : Option Nat
  closed : Bool
  deriving Repr, DecidableEq

/-- Translation of the address-publication block of `main` (main.c:234):
append a newline to the listen address, write it to the descriptor, treat
any transfer count other than the full length as fatal (`exit (1)`), and
otherwise close the descriptor exactly when it is greater than 2. The
write's transfer count is the oracle `writeReturn`. -/
def publishAddress (address : String) (fd : Int) (writeReturn : Int) : PublishResult :=
  let text := address ++ "\n"
  if writeReturn ≠ (text.length : Int) then
    { payload := text, fd := fd, exitCode := some 1, closed := false }
  else
    { payload := text, fd := fd, exitCode := none, closed := decide (2 < fd) }

/-- Appending the empty string on the right leaves a string unchanged. -/
theorem string_append_empty (s : String) : s ++ "" = s := by
  cases s with
  | mk data =>
    show String.mk (data ++ []) = String.mk data
    rw [List.append_nil]

/-- Appending the empty string on the left leaves a string unchanged. -/
theorem string_empty_append (s : String) : "" ++ s = s := by
  cases s with
  | mk data => rfl

/-- C9: calling `dbus_set_error_const` or `dbus_set_error` with a NULL
error pointer returns immediately, changing nothing, for every name,
message, format, rendering and allocation outcome. -/
theorem set_error_null_pointer_noop :
    ∀ (name message format : Option String) (rendered : String → String) (allocOk : Bool),
      dbus_set_error_const none name message = .ok none ∧
      dbus_set_error none name format rendered allocOk = .ok none :=
  fun _ _ _ _ _ => ⟨rfl, rfl⟩

/-- C6: after `dbus_error_free` the object is empty, so `dbus_error_is_set`
reports false, a subsequent `dbus_set_error_const` passes its not-already-set
assertions and sets the object, and freeing twice leaves the same state as
freeing once. -/
theorem error_free_reset_idempotent :
    (∀ e, dbus_error_is_set (some (dbus_error_free e)) = .ok false) ∧
    (∀ e n m, dbus_set_error_const (some (dbus_error_free e)) (some n) m =
      .ok (some { name := some n, message := some (resolved_message n m),
                  const_message := true })) ∧
    (∀ e, dbus_error_free (dbus_error_free e) = dbus_error_free e) :=
  ⟨fun _ => rfl, fun _ _ _ => rfl, fun _ => rfl⟩

/-- C1: the claim says `dbus_move_error` with a NULL destination frees the
source and succeeds without assertion failure, matching the function's own
doc comment; but its entry assertion evaluates `dbus_error_is_set (dest)`
on the NULL destination, and `dbus_error_is_set` asserts a non-NULL
pointer, so the call is an assertion failure for a freshly initialized
source and for a set source alike. -/
theorem dbus_move_error_null_dest_assertion :
    dbus_move_error (dbus_error_init dbus_error_empty) none = .assertionFailure ∧
    dbus_move_error { name := some "org.example.Failed", message := some "boom",
                      const_message := true } none = .assertionFailure :=
  ⟨rfl, rfl⟩

/-- C4: on an empty error object, `dbus_set_error` whose heap allocation
fails does not propagate the failure: it falls back to
`dbus_set_error_const` with `DBUS_ERROR_NO_MEMORY` and a NULL message, so
the object ends up set with the table's out-of-memory text and a borrowed
(`const_message = true`) message, for every name, format and rendering. -/
theorem set_error_alloc_failure_fallback (e : DBusError) (n : String)
    (format : Option String) (rendered : String → String)
    (h1 : e.name = none) (h2 : e.message = none) :
    dbus_set_error (some e) (some n) format rendered false =
      .ok (some { name := some DBUS_ERROR_NO_MEMORY,
                  message := some "Not enough memory available",
                  const_message := true }) := by
  simp [dbus_set_error, dbus_set_error_const, h1, h2, resolved_message,
        message_from_error, DBUS_ERROR_NO_MEMORY, DBUS_ERROR_FAILED]

/-- Witness for the allocation-failure fallback at a concrete input. -/
theorem set_error_alloc_failure_fallback_witness :
    dbus_set_error (some dbus_error_empty) (some "org.example.X") none id false =
      .ok (some { name := some DBUS_ERROR_NO_MEMORY,
                  message := some "Not enough memory available",
                  const_message := true }) :=
  set_error_alloc_failure_fallback dbus_error_empty "org.example.X" none id rfl rfl

/-- C3: `dbus_set_error_const` with an absent message stores, for every
name in the fallback table, exactly the table's text — including the
misspelled "Invalid argumemts." for the invalid-args name — and, for every
name outside the table, the name string itself. -/
theorem set_error_const_table_substitution :
    (∀ p ∈ fallbackTable,
      dbus_set_error_const (some dbus_error_empty) (some p.1) none =
        .ok (some { name := some p.1, message := some p.2, const_message := true })) ∧
    (∀ n, n ∉ fallbackTable.map Prod.fst →
      dbus_set_error_const (some dbus_error_empty) (some n) none =
        .ok (some { name := some n, message := some n, const_message := true })) ∧
    dbus_set_error_const (some dbus_error_empty) (some DBUS_ERROR_INVALID_ARGS) none =
      .ok (some { name := some DBUS_ERROR_INVALID_ARGS,
                  message := some "Invalid argumemts.", const_message := true }) := by
  refine ⟨by decide, ?_, by decide⟩
  intro n h
  simp [fallbackTable, DBUS_ERROR_FAILED, DBUS_ERROR_NO_MEMORY, DBUS_ERROR_IO_ERROR,
        DBUS_ERROR_BAD_ADDRESS, DBUS_ERROR_NOT_SUPPORTED, DBUS_ERROR_LIMITS_EXCEEDED,
        DBUS_ERROR_ACCESS_DENIED, DBUS_ERROR_AUTH_FAILED, DBUS_ERROR_NO_SERVER,
        DBUS_ERROR_TIMEOUT, DBUS_ERROR_NO_NETWORK, DBUS_ERROR_ADDRESS_IN_USE,
        DBUS_ERROR_DISCONNECTED, DBUS_ERROR_INVALID_ARGS, DBUS_ERROR_NO_REPLY,
        DBUS_ERROR_FILE_NOT_FOUND] at h
  obtain ⟨h1, h2, h3, h4, h5, h6, h7, h8, h9, h10, h11, h12, h13, h14, h15, h16⟩ := h
  simp [dbus_set_error_const, dbus_error_empty, resolved_message, message_from_error,
        DBUS_ERROR_FAILED, DBUS_ERROR_NO_MEMORY, DBUS_ERROR_IO_ERROR,
        DBUS_ERROR_BAD_ADDRESS, DBUS_ERROR_NOT_SUPPORTED, DBUS_ERROR_LIMITS_EXCEEDED,
        DBUS_ERROR_ACCESS_DENIED, DBUS_ERROR_AUTH_FAILED, DBUS_ERROR_NO_SERVER,
        DBUS_ERROR_TIMEOUT, DBUS_ERROR_NO_NETWORK, DBUS_ERROR_ADDRESS_IN_USE,
        DBUS_ERROR_DISCONNECTED, DBUS_ERROR_INVALID_ARGS, DBUS_ERROR_NO_REPLY,
        DBUS_ERROR_FILE_NOT_FOUND, h1, h2, h3, h4, h5, h6, h7, h8, h9, h10, h11,
        h12, h13, h14, h15, h16]

/-- Witness for the table substitution: one tabulated name and one name
outside the table. -/
theorem set_error_const_table_substitution_witness :
    dbus_set_error_const (some dbus_error_empty) (some DBUS_ERROR_FAILED) none =
      .ok (some { name := some DBUS_ERROR_FAILED, message := some "Unknown error",
                  const_message := true }) ∧
    dbus_set_error_const (some dbus_error_empty) (some "org.example.Custom") none =
      .ok (some { name := some "org.example.Custom", message := some "org.example.Custom",
                  const_message := true }) :=
  ⟨set_error_const_table_substitution.1 (DBUS_ERROR_FAILED, "Unknown error") (by decide),
   set_error_const_table_substitution.2.1 "org.example.Custom" (by decide)⟩

/-- C5: every error-module operation preserves the both-present-or-both-absent
invariant on name and message: initialization and freeing yield the empty
(invariant) state, both set operations can only produce a state with both
fields present, and a move from an invariant source leaves both the reset
source and the receiving destination invariant. -/
theorem error_ops_preserve_invariant :
    (∀ e, errInv (dbus_error_init e) = true) ∧
    (∀ e, errInv (dbus_error_free e) = true) ∧
    (∀ e name message e',
      dbus_set_error_const (some e) name message = .ok (some e') → errInv e' = true) ∧
    (∀ e name format rendered allocOk e',
      dbus_set_error (some e) name format rendered allocOk = .ok (some e') →
        errInv e' = true) ∧
    (∀ src dest out, errInv src = true → dbus_move_error src dest = .ok out →
      errInv out.1 = true ∧ ∀ d, out.2 = some d → errInv d = true) := by
  refine ⟨fun _ => rfl, fun _ => rfl, ?_, ?_, ?_⟩
  · intro e name message e' h
    by_cases hn : e.name.isSome
    · simp [dbus_set_error_const, hn] at h
    · by_cases hm : e.message.isSome
      · simp [dbus_set_error_const, hn, hm] at h
      · cases name with
        | none => simp [dbus_set_error_const, hn, hm] at h
        | some nm =>
          simp [dbus_set_error_const, hn, hm] at h
          rw [← h]
          rfl
  · intro e name format rendered allocOk e' h
    by_cases hn : e.name.isSome
    · simp [dbus_set_error, hn] at h
    · by_cases hm : e.message.isSome
      · simp [dbus_set_error, hn, hm] at h
      · cases name with
        | none => simp [dbus_set_error, hn, hm] at h
        | some nm =>
          cases allocOk with
          | true =>
            simp [dbus_set_error, hn, hm] at h
            rw [← h]
            rfl
          | false =>
            simp [dbus_set_error, dbus_set_error_const, hn, hm] at h
            rw [← h]
            rfl
  · intro src dest out hsrc h
    cases dest with
    | none => simp [dbus_move_error, dbus_error_is_set] at h
    | some d =>
      cases hs : dbus_error_is_set (some d) with
      | assertionFailure =>
        rw [dbus_move_error, hs] at h
        simp at h
      | ok b =>
        rw [dbus_move_error, hs] at h
        cases b with
        | true => simp at h
        | false =>
          simp at h
          rw [← h]
          refine ⟨rfl, ?_⟩
          intro x hx
          simp at hx
          rw [← hx]
          exact hsrc

/-- Witness for invariant preservation: a constant set and a move, at
concrete inputs. -/
theorem error_ops_preserve_invariant_witness :
    errInv { name := some "org.example.E", message := some "Unknown",
             const_message := true } = true ∧
    errInv dbus_error_empty = true ∧
    errInv { name := some "n", message := some "m", const_message := false } = true :=
  have h3 := error_ops_preserve_invariant.2.2.1 dbus_error_empty
    (some "org.example.E") (some "Unknown")
    { name := some "org.example.E", message := some "Unknown", const_message := true }
    (by decide)
  have h5 := error_ops_preserve_invariant.2.2.2.2
    { name := some "n", message := some "m", const_message := false }
    (some dbus_error_empty)
    (dbus_error_empty, some { name := some "n", message := some "m",
                              const_message := false })
    (by decide) (by decide)
  ⟨h3, h5.1, h5.2 _ rfl⟩

/-- C2 counterexample: in `--print-address --system` the token following
`--print-address` is not consumed as the address descriptor — the
`--system` branch of the dispatch chain runs first, so the token selects
the system configuration path and `addr_fd` stays empty. -/
theorem print_address_flag_token_counterexample :
    parseArgs ["--print-address", "--system"] =
      .ok { config_file := DBUS_SYSTEM_CONFIG_FILE, addr_fd := "",
            print_address := true, prev_arg := some "--system" } ∧
    ¬ ∃ t, parseArgs ["--print-address", "--system"] = .ok t ∧ t.addr_fd = "--system" := by
  refine ⟨by decide, ?_⟩
  rintro ⟨t, ht, ha⟩
  rw [show parseArgs ["--print-address", "--system"] =
        .ok { config_file := DBUS_SYSTEM_CONFIG_FILE, addr_fd := "",
              print_address := true, prev_arg := some "--system" } from by decide] at ht
  injection ht with ht
  rw [← ht] at ha
  simp at ha

/-- C2 amended: a token following `--print-address` is consumed as the
address descriptor exactly when it matches none of the flag forms tested
earlier in the dispatch chain (`--help`, `-h`, `-?`, `--version`,
`--system`, `--session`, a `--config-file=` prefix, `--config-file`, or a
`--print-address=` prefix); a following token that is such a flag — for
example `--system` or `--config-file=PATH` — is handled as that flag
instead. -/
theorem print_address_following_token_descriptor (s : ParseState) (arg : String)
    (hprev : s.prev_arg = some "--print-address")
    (hfd : s.addr_fd = "")
    (h1 : arg ≠ "--help") (h2 : arg ≠ "-h") (h3 : arg ≠ "-?")
    (h4 : arg ≠ "--version") (h5 : arg ≠ "--system") (h6 : arg ≠ "--session")
    (h7 : str_has_prefix "--config-file=" arg = false)
    (h8 : arg ≠ "--config-file")
    (h9 : str_has_prefix "--print-address=" arg = false) :
    mainStep s arg =
      .ok { s with addr_fd := arg, print_address := true, prev_arg := some arg } := by
  simp [mainStep, mainStepCore, Except.map, hprev, hfd, h1, h2, h3, h4, h5, h6, h7,
        h8, h9, string_empty_append]

/-- Witness for the amended descriptor-consumption rule at a concrete
non-flag token. -/
theorem print_address_following_token_descriptor_witness :
    mainStep { config_file := "", addr_fd := "", print_address := true,
               prev_arg := some "--print-address" } "3" =
      .ok { config_file := "", addr_fd := "3", print_address := true,
            prev_arg := some "3" } :=
  print_address_following_token_descriptor
    { config_file := "", addr_fd := "", print_address := true,
      prev_arg := some "--print-address" } "3"
    rfl rfl (by decide) (by decide) (by decide) (by decide) (by decide) (by decide)
    (by decide) (by decide) (by decide)

/-- C7: with publication requested and a non-empty explicit descriptor
text, the post-loop validation exits with status 1 and a diagnostic
quoting the text when the text does not parse as an integer, parses with
trailing characters, is negative, or exceeds `_DBUS_INT_MAX`; otherwise
the parsed value becomes the publication descriptor. -/
theorem print_address_descriptor_validation (s : ParseState)
    (hc : s.config_file.length ≠ 0) (hp : s.print_address = true)
    (ha : 0 < s.addr_fd.length) :
    (_dbus_string_parse_int s.addr_fd = none →
      resolveAfterParse s = .error (.invalidDescriptor s.addr_fd)) ∧
    (∀ v stop, _dbus_string_parse_int s.addr_fd = some (v, stop) →
      (stop ≠ s.addr_fd.length ∨ v < 0 ∨ _DBUS_INT_MAX < v) →
      resolveAfterParse s = .error (.invalidDescriptor s.addr_fd)) ∧
    (∀ v, _dbus_string_parse_int s.addr_fd = some (v, s.addr_fd.length) →
      0 ≤ v → v ≤ _DBUS_INT_MAX →
      resolveAfterParse s = .ok (s.config_file, v)) ∧
    exitStatus (.invalidDescriptor s.addr_fd) = 1 := by
  refine ⟨?_, ?_, ?_, rfl⟩
  · intro hparse
    simp [resolveAfterParse, hc, hp, ha, hparse]
  · intro v stop hparse hbad
    simp [resolveAfterParse, hc, hp, ha, hparse, hbad]
  · intro v hparse hnn hle
    simp [resolveAfterParse, hc, hp, ha, hparse]
    exact ⟨hnn, hle⟩

/-- Witness for descriptor validation: a non-numeric text is rejected with
its diagnostic, and a plain digit becomes the descriptor. -/
theorem print_address_descriptor_validation_witness :
    resolveAfterParse { config_file := "/x", addr_fd := "abc", print_address := true,
                        prev_arg := none } = .error (.invalidDescriptor "abc") ∧
    resolveAfterParse { config_file := "/x", addr_fd := "7", print_address := true,
                        prev_arg := none } = .ok ("/x", 7) :=
  ⟨(print_address_descriptor_validation
      { config_file := "/x", addr_fd := "abc", print_address := true, prev_arg := none }
      (by decide) rfl (by decide)).1 (by decide),
   (print_address_descriptor_validation
      { config_file := "/x", addr_fd := "7", print_address := true, prev_arg := none }
      (by decide) rfl (by decide)).2.2.1 7 (by decide) (by decide) (by decide)⟩

/-- C8: the publication block hands exactly the listen address followed by
one newline to the write on the resolved descriptor; a transfer count
other than that full length exits with status 1 before any close; a full
transfer closes the descriptor exactly when it is greater than 2, so the
standard descriptors 0, 1 and 2 are never closed; and with no explicit
descriptor the resolved descriptor is 1. -/
theorem address_publication_write_close (address : String) (fd writeReturn : Int) :
    (publishAddress address fd writeReturn).payload = address ++ "\n" ∧
    (publishAddress address fd writeReturn).fd = fd ∧
    (writeReturn ≠ ((address ++ "\n").length : Int) →
      (publishAddress address fd writeReturn).exitCode = some 1 ∧
      (publishAddress address fd writeReturn).closed = false) ∧
    (writeReturn = ((address ++ "\n").length : Int) →
      (publishAddress address fd writeReturn).exitCode = none ∧
      ((publishAddress address fd writeReturn).closed = true ↔ 2 < fd)) ∧
    (∀ s : ParseState, s.config_file.length ≠ 0 → s.print_address = true →
      s.addr_fd = "" → resolveAfterParse s = .ok (s.config_file, 1)) := by
  simp only [publishAddress]
  by_cases h : writeReturn = ((address ++ "\n").length : Int)
  · rw [if_neg (not_not_intro h)]
    refine ⟨rfl, rfl, fun hne => absurd h hne, fun _ => ⟨rfl, by simp⟩, ?_⟩
    intro s hc hp hafd
    simp [resolveAfterParse, hc, hp, hafd]
  · rw [if_pos h]
    refine ⟨rfl, rfl, fun _ => ⟨rfl, rfl⟩, fun heq => absurd heq h, ?_⟩
    intro s hc hp hafd
    simp [resolveAfterParse, hc, hp, hafd]

/-- Witness for address publication: the spec's example address on
descriptor 1 with a full and a short write, and the defaulted descriptor. -/
theorem address_publication_write_close_witness :
    (publishAddress "unix:path=/tmp/bus" 1 19).payload = "unix:path=/tmp/bus\n" ∧
    (publishAddress "unix:path=/tmp/bus" 1 19).exitCode = none ∧
    (publishAddress "unix:path=/tmp/bus" 1 19).closed = false ∧
    (publishAddress "unix:path=/tmp/bus" 1 4).exitCode = some 1 ∧
    resolveAfterParse { config_file := "/x", addr_fd := "", print_address := true,
                        prev_arg := none } = .ok ("/x", 1) :=
  have hfull := (address_publication_write_close "unix:path=/tmp/bus" 1 19).2.2.2.1
    (by decide)
  have hshort := (address_publication_write_close "unix:path=/tmp/bus" 1 4).2.2.1
    (by decide)
  ⟨(address_publication_write_close "unix:path=/tmp/bus" 1 19).1, hfull.1,
   by
     cases hcl : (publishAddress "unix:path=/tmp/bus" 1 19).closed with
     | false => rfl
     | true => exact absurd (hfull.2.mp hcl) (by decide),
   hshort.1,
   (address_publication_write_close "x" 0 0).2.2.2.2
     { config_file := "/x", addr_fd := "", print_address := true, prev_arg := none }
     (by decide) rfl rfl⟩

/-- C10: a `--print-address=` token carrying an empty descriptor text sets
the publication flag while leaving `addr_fd` empty (so it neither reaches
descriptor validation nor counts as an already-set descriptor), the empty
descriptor then defaults to 1, and a later explicit descriptor is accepted
without a duplicate diagnostic. -/
theorem print_address_empty_descriptor :
    (∀ s : ParseState, s.addr_fd = "" → s.prev_arg ≠ some "--config-file" →
      mainStep s "--print-address=" =
        .ok { s with print_address := true, prev_arg := some "--print-address=" }) ∧
    (∀ s : ParseState, s.config_file.length ≠ 0 → s.print_address = true →
      s.addr_fd = "" → resolveAfterParse s = .ok (s.config_file, 1)) ∧
    parseArgs ["--config-file=/tmp/x", "--print-address=", "--print-address=7"] =
      .ok { config_file := "/tmp/x", addr_fd := "7", print_address := true,
            prev_arg := some "--print-address=7" } ∧
    resolveAfterParse { config_file := "/tmp/x", addr_fd := "7", print_address := true,
                        prev_arg := some "--print-address=7" } = .ok ("/tmp/x", 7) := by
  refine ⟨?_, ?_, by decide, by decide⟩
  · intro s hfd hprev
    have e1 : str_has_prefix "--config-file=" "--print-address=" = false := by decide
    have e2 : str_has_prefix "--print-address=" "--print-address=" = true := by decide
    have e3 : str_drop "--print-address=" "--print-address=".length = "" := by decide
    simp [mainStep, mainStepCore, Except.map, hfd, hprev, e1, e2, e3,
          string_append_empty]
  · intro s hc hp hafd
    simp [resolveAfterParse, hc, hp, hafd]

/-- Witness for the empty-descriptor form at concrete states. -/
theorem print_address_empty_descriptor_witness :
    mainStep { config_file := "", addr_fd := "", print_address := false,
               prev_arg := none } "--print-address=" =
      .ok { config_file := "", addr_fd := "", print_address := true,
            prev_arg := some "--print-address=" } ∧
    resolveAfterParse { config_file := "/x", addr_fd := "", print_address := true,
                        prev_arg := none } = .ok ("/x", 1) :=
  ⟨print_address_empty_descriptor.1
     { config_file := "", addr_fd := "", print_address := false, prev_arg := none }
     rfl (by decide),
   print_address_empty_descriptor.2.1
     { config_file := "/x", addr_fd := "", print_address := true, prev_arg := none }
     (by decide) rfl rfl⟩
